import Mathlib

/-!
Verification of the Toloka2MediaServer torrent-lifecycle core, a shallow
embedding of `toloka2MediaServer/utils/torrent_processor.py` and
`toloka2MediaServer/clients/qbittorrent.py`.  Stateful Python code becomes
explicit state passing; interactions with the remote torrent client are
parameters carrying the values the client calls would have returned; a
Python crash (uncaught exception such as IndexError) is `none`.
-/

namespace Toloka

/-! ### Python-style string and list helpers -/

/-- Whether the first list is an initial segment of the second. -/
def listStartsWith : List Char → List Char → Bool
  | [], _ => true
  | _ :: _, [] => false
  | a :: as, b :: bs => a = b && listStartsWith as bs

/-- Whether the first list occurs as a contiguous segment of the second. -/
def listContainsSeq (needle : List Char) : List Char → Bool
  | [] => needle.isEmpty
  | c :: rest => listStartsWith needle (c :: rest) || listContainsSeq needle rest

/-- Python `needle in haystack` on strings (substring containment). -/
def pyIn (needle haystack : String) : Bool :=
  listContainsSeq needle.toList haystack.toList

/-- Helper for `pySplit`: split a character list at a separator. -/
def splitCharsAux (sep : Char) : List Char → List Char → List String
  | [], acc => [String.mk acc.reverse]
  | c :: cs, acc =>
    if c = sep then String.mk acc.reverse :: splitCharsAux sep cs []
    else splitCharsAux sep cs (c :: acc)

/-- Python `s.split(sep)` for a one-character separator. -/
def pySplit (sep : Char) (s : String) : List String :=
  splitCharsAux sep s.toList []

/-- Helper for `pyReplace`: replace every non-overlapping occurrence, left to
right.  The fuel starts at the haystack length; every step consumes at least
one character, so it never runs out on a non-empty pattern. -/
def replaceFuel (pattern repl : List Char) : Nat → List Char → List Char
  | 0, s => s
  | _ + 1, [] => []
  | fuel + 1, c :: rest =>
    if pattern ≠ [] ∧ listStartsWith pattern (c :: rest) then
      repl ++ replaceFuel pattern repl fuel ((c :: rest).drop pattern.length)
    else c :: replaceFuel pattern repl fuel rest

/-- Python `s.replace(pattern, repl)` for a non-empty pattern. -/
def pyReplace (s pattern repl : String) : String :=
  String.mk (replaceFuel pattern.toList repl.toList s.toList.length s.toList)

/-- Python `sep.join(parts)`. -/
def pyJoin (sep : String) (parts : List String) : String :=
  String.intercalate sep parts

/-- Value of a run of decimal digits. -/
def digitsVal (l : List Char) : Nat :=
  l.foldl (fun n c => 10 * n + (c.toNat - 48)) 0

/-- Python `int(s)` for the optionally-signed decimal strings this code builds. -/
def pyInt (s : String) : Int :=
  match s.toList with
  | '-' :: rest => - (digitsVal rest : Int)
  | cs => (digitsVal cs : Int)

/-- Python `s.zfill(width)`: left-pad with zeros after any sign. -/
def pyZfill (s : String) (width : Nat) : String :=
  let cs := s.toList
  let pad := List.replicate (width - cs.length) '0'
  match cs with
  | [] => String.mk pad
  | c :: rest =>
    if c = '-' ∨ c = '+' then String.mk (c :: (pad ++ rest))
    else String.mk (pad ++ (c :: rest))

/-- Python list indexing `l[i]` with negative indices; `none` is IndexError. -/
def pyIndex {α : Type} (l : List α) (i : Int) : Option α :=
  if 0 ≤ i then l.get? i.toNat
  else if 0 ≤ i + l.length then l.get? (i + l.length).toNat
  else none

/-- Python `s.strip(c)` for a single strip character. -/
def pyStripChar (s : String) (c : Char) : String :=
  String.mk (((s.toList.dropWhile (fun a => a = c)).reverse.dropWhile
    (fun a => a = c)).reverse)

/-- Python `min(l)` over ints; `none` is the ValueError on an empty list. -/
def pyListMin : List Int → Option Int
  | [] => none
  | x :: xs => some (xs.foldl min x)

/-- Python `max(l)` over ints; `none` is the ValueError on an empty list. -/
def pyListMax : List Int → Option Int
  | [] => none
  | x :: xs => some (xs.foldl max x)

/-! ### Helpers of `utils/general.py` (module absent from the sources) -/

/-- Helper for `get_numbers`: collect maximal digit runs, left to right. -/
def digitRunsAux : List Char → List Char → List String
  | [], acc => if acc.isEmpty then [] else [String.mk acc.reverse]
  | c :: cs, acc =>
    if c.isDigit then digitRunsAux cs (c :: acc)
    else if acc.isEmpty then digitRunsAux cs []
    else String.mk acc.reverse :: digitRunsAux cs []

/-- Modelled from the spec: `utils/general.py` is absent from the sources;
§4.4 token extraction — scan left-to-right, yield every maximal digit run in
order (`"S01E02 - 1080p" → ["01","02","1080"]`). -/
def get_numbers (s : String) : List String :=
  digitRunsAux s.toList []

/-- Modelled from the spec: `utils/general.py` is absent from the sources;
replaces the second `/`-separated component of a path (observed behavior:
`("root/old/file.mkv", "new") → "root/new/file.mkv"`, a path without a
separator is returned unchanged). -/
def replace_second_part_in_path (path new_part : String) : String :=
  let parts := pySplit '/' path
  if 2 ≤ parts.length then pyJoin "/" (parts.set 1 new_part) else path

/-- Modelled from the spec: `utils/general.py` is absent from the sources;
first `/`-separated component of a path, `""` when the path has no folder
(observed behavior: `"folder/file.mkv" → "folder"`, `"file.mkv" → ""`). -/
def get_folder_name_from_path (path : String) : String :=
  let parts := pySplit '/' path
  if 2 ≤ parts.length then parts.headD "" else ""

/-! ### Data model -/

/-- Modelled from the spec: `models/operation_result.py` is absent from the
sources; §3 — per-run outcome code SUCCESS or FAILURE. -/
inductive ResponseCode
  | SUCCESS
  | FAILURE
deriving DecidableEq, Repr

/-- Modelled from the spec: `models/title.py` is absent from the sources;
§3 Title — persisted per-release record. -/
structure Title where
  code_name : String := ""
  episode_index : Int := -1
  season_number : String := ""
  torrent_name : String := ""
  download_dir : String := ""
  release_group : String := ""
  meta : String := ""
  adjusted_episode_number : Int := 0
  publish_date : String := ""
  hash : String := ""
  guid : String := ""
  is_partial_season : Bool := false
deriving DecidableEq, Repr

/-- Indexer search result (§3 Torrent), immutable per lookup. -/
structure Torrent where
  name : String := ""
  url : String := ""
  torrent_url : String := ""
  date : String := ""
  author : String := ""
deriving DecidableEq, Repr

/-- Modelled from the spec: `models/operation_result.py` is absent from the
sources; §3 OperationResult — response code, ordered operation logs, lists of
touched Titles/Torrents (a Title reference may be Python `None`). -/
structure OperationResult where
  response_code : ResponseCode
  operation_logs : List String := []
  titles_references : List (Option Title) := []
  torrent_references : List Torrent := []
deriving DecidableEq, Repr

/-- The fields of the application config consulted by `process_torrent`. -/
structure ApplicationConfig where
  client : String
  client_wait_time : Nat := 0
  enable_dot_spacing_in_file_name : Bool
deriving DecidableEq, Repr

/-! ### `clients/qbittorrent.py`: torrent state classification -/

namespace TorrentState

/-- `TorrentState.active_states()` — states indicating the torrent is
active/running. -/
def active_states : List String :=
  ["downloading", "uploading", "stalledDL", "stalledUP", "forcedDL",
   "forcedUP", "metaDL", "allocating", "queuedDL", "queuedUP",
   "checkingDL", "checkingUP"]

/-- `TorrentState.checking_states()` — states indicating the torrent is being
checked. -/
def checking_states : List String :=
  ["checkingUP", "checkingDL", "checkingResumeData"]

/-- `TorrentState.error_states()` — states indicating an error. -/
def error_states : List String :=
  ["error", "missingFiles", "unknown"]

/-- `TorrentState.stopped_states()` — states indicating the torrent is
stopped. -/
def stopped_states : List String :=
  ["stoppedDL", "stoppedUP", "pausedDL", "pausedUP"]

end TorrentState

/-! ### `clients/qbittorrent.py`: retry executor -/

/-- `RetryConfig` with the defaults of the source.  Delays are modelled as
rationals; the source stores them as floats, but only products with the
backoff factor and `min` with the cap are formed. -/
structure RetryConfig where
  max_attempts : Nat := 10
  initial_delay : Rat := 1
  max_delay : Rat := 10
  backoff_factor : Rat := 3 / 2
  verification_delay : Rat := 3
deriving DecidableEq, Repr

/-- What one loop iteration of `_retry_operation` observes: either the
operation or verification raised, or verification returned a boolean. -/
inductive AttemptOutcome
  | raises (e : String)
  | verify (ok : Bool)
deriving DecidableEq, Repr

/-- The loop of `QbittorrentClient._retry_operation`.  `remaining` is the
number of loop iterations left, `attempt` the 0-based index of the current
one (`attempt + remaining = max_attempts`), `delay` the current backoff
delay, and `slept` accumulates the backoff sleeps issued so far.  Returns the
Python return or raised message, with the backoff sleeps performed. -/
def retryGo (cfg : RetryConfig) (name : String) (outcome : Nat → AttemptOutcome) :
    Nat → Nat → Rat → List Rat → Except String Bool × List Rat
  | 0, _, _, slept => (Except.ok false, slept)
  | remaining + 1, attempt, delay, slept =>
    match outcome attempt with
    | AttemptOutcome.verify true => (Except.ok true, slept)
    | AttemptOutcome.verify false =>
      if attempt < cfg.max_attempts - 1 then
        retryGo cfg name outcome remaining (attempt + 1)
          (min (delay * cfg.backoff_factor) cfg.max_delay) (slept ++ [delay])
      else (Except.ok false, slept)
    | AttemptOutcome.raises e =>
      if attempt < cfg.max_attempts - 1 then
        retryGo cfg name outcome remaining (attempt + 1)
          (min (delay * cfg.backoff_factor) cfg.max_delay) (slept ++ [delay])
      else
        (Except.error ("Failed to " ++ name ++ " after " ++
          toString cfg.max_attempts ++ " attempts: " ++ e), slept)

/-- `QbittorrentClient._retry_operation(operation, verification, name)`,
with the outcome of each attempt supplied by `outcome`. -/
def retry_operation (cfg : RetryConfig) (outcome : Nat → AttemptOutcome)
    (name : String) : Except String Bool × List Rat :=
  retryGo cfg name outcome cfg.max_attempts 0 cfg.initial_delay []

/-- The capped geometric backoff sequence: each delay is the previous one
times the backoff factor, capped at the maximum delay. -/
def capped_backoff (cfg : RetryConfig) : Nat → Rat → List Rat
  | 0, _ => []
  | n + 1, d => d :: capped_backoff cfg n (min (d * cfg.backoff_factor) cfg.max_delay)

/-! ### `clients/qbittorrent.py`: add and recheck operations -/

/-- `QbittorrentClient.add_torrent`: the content-derived hash is computed
before submission; an already-present torrent, a 409 conflict on add, and a
torrent that never became visible after the add all yield `None`. -/
def add_torrent_client (torrent_hash : String) (exists_before : Bool)
    (conflict409 : Bool) (visible_after : Bool) : Option String :=
  if exists_before then none
  else if conflict409 then none
  else if visible_after then some torrent_hash
  else none

/-- `QbittorrentClient._quick_wait_for_recheck_start`, over the trace of
states observed at successive polls inside the quick-start window (`none` is
a vanished torrent; an exhausted trace is the timeout). -/
def quick_wait_for_recheck_start : List (Option String) → Bool
  | [] => false
  | none :: _ => false
  | some s :: rest =>
    if TorrentState.checking_states.contains s then true
    else if TorrentState.active_states.contains s then true
    else quick_wait_for_recheck_start rest

/-- Result of `QbittorrentClient.recheck_and_resume_async`: the returned pair
plus whether a supervised background task was submitted and the resulting
active-task map. -/
structure AsyncOutcome where
  started : Bool
  message : String
  spawned : Bool
  tasks : List String
deriving DecidableEq, Repr

/-- `QbittorrentClient.recheck_and_resume_async` over one sequential
invocation.  `tasks` is the active-task map keyed by torrent identifier,
`initial_lookup` the state found in step 1 (`none` = not found),
`recheck_error` an exception from the recheck request, `poll_trace` the
states the quick wait observes, and `post_lookup` the state found by the
re-lookup when the quick wait fails. -/
def recheck_and_resume_async (tasks : List String) (torrent_hash : String)
    (initial_lookup : Option String) (recheck_error : Option String)
    (poll_trace : List (Option String)) (post_lookup : Option String) :
    AsyncOutcome :=
  match initial_lookup with
  | none => { started := false, message := "Torrent not found", spawned := false, tasks := tasks }
  | some _ =>
    if tasks.contains torrent_hash then
      { started := true, message := "Recheck already in progress (monitored)",
        spawned := false, tasks := tasks }
    else
      match recheck_error with
      | some e =>
        { started := false, message := "Failed to start recheck: " ++ e,
          spawned := false, tasks := tasks }
      | none =>
        let recheck_started := quick_wait_for_recheck_start poll_trace
        let early : Option AsyncOutcome :=
          if recheck_started then none
          else
            match post_lookup with
            | some s =>
              if TorrentState.active_states.contains s then
                some { started := true, message := "Torrent already active: " ++ s,
                       spawned := false, tasks := tasks }
              else if TorrentState.error_states.contains s then
                some { started := false, message := "Torrent in error state: " ++ s,
                       spawned := false, tasks := tasks }
              else none
            | none => none
        match early with
        | some r => r
        | none =>
          { started := true,
            message := "Recheck " ++ (if recheck_started then "checking" else "pending") ++
              ", monitoring in background",
            spawned := true,
            tasks := tasks ++ [torrent_hash] }

/-- The terminal outcomes of `_background_recheck_completion`: cooperative
cancellation, a failed recheck, the resume-and-verify result, or an uncaught
exception inside the task. -/
inductive BgOutcomeCase
  | cancelled
  | recheck_failed (reason : String)
  | resume_outcome (ok : Bool) (message : String)
  | raised (error_message : String)
deriving DecidableEq, Repr

/-- `QbittorrentClient._background_recheck_completion`: for every terminal
outcome the task entry is removed from the map (the `finally` cleanup) and
the completion callback is invoked once with the outcome shown. -/
def background_recheck_completion (tasks : List String) (torrent_hash : String) :
    BgOutcomeCase → List String × Bool × String
  | BgOutcomeCase.cancelled =>
    (tasks.erase torrent_hash, false, "Cancelled")
  | BgOutcomeCase.recheck_failed r =>
    (tasks.erase torrent_hash, false, "Recheck failed: " ++ r)
  | BgOutcomeCase.resume_outcome ok m =>
    (tasks.erase torrent_hash, ok, m)
  | BgOutcomeCase.raised e =>
    (tasks.erase torrent_hash, false, "Background error: " ++ e)

/-! ### `utils/torrent_processor.py` -/

/-- The values the client calls made by `process_torrent` would return:
`add_torrent`, `get_torrent_info` (qBittorrent branch: whether the filtered
list is non-empty; other branch: the `hash_string`), `get_files`, the
discarded rename results, `resume_torrent` and `recheck_and_resume_async`. -/
structure ClientResponses where
  add_torrent_response : Option String
  info_nonempty : Bool := true
  transmission_hash : String := ""
  files : List String := []
  rename_file_result : Bool := true
  rename_folder_result : Bool := true
  rename_torrent_result : Bool := true
  resume_result : Bool := true
  recheck_async_result : Bool × String := (true, "")
deriving DecidableEq, Repr

/-- The client calls a run issues, in the order of the source, plus whether
`update_config` persisted the Title. -/
structure Effects where
  rename_file_calls : List (String × String) := []
  rename_folder_calls : List (String × String) := []
  rename_torrent_calls : List String := []
  resume_calls : List String := []
  recheck_async_calls : List String := []
  recheck_calls : List String := []
  delete_calls : List (Bool × String) := []
  end_session_calls : Nat := 0
  update_config_called : Bool := false
deriving DecidableEq, Repr

/-- A normally-returning run of `process_torrent`: the operation result, the
mutated Title, and the effects issued. -/
structure ProcOutcome where
  result : OperationResult
  title : Title
  effects : Effects
deriving DecidableEq, Repr

/-- Append a message to the logs and set the FAILURE response code, as the
early-return blocks of `process_torrent` and `update` do. -/
def appendFail (op : OperationResult) (msg : String) : OperationResult :=
  { op with operation_logs := op.operation_logs ++ [msg],
            response_code := ResponseCode.FAILURE }

/-- Set the SUCCESS response code, as the final lines of `process_torrent`
do. -/
def appendSuccess (op : OperationResult) : OperationResult :=
  { op with response_code := ResponseCode.SUCCESS }

/-- The extension taken in the rename loop: `file.name.split('.')[-1]`. -/
def file_ext_name (file_name : String) : String :=
  (pySplit '.' file_name).getLastD ""

/-- `str(int(source_episode) + title.adjusted_episode_number).zfill(len(source_episode))`. -/
def calculated_episode (title : Title) (source_episode : String) : String :=
  pyZfill (toString (pyInt source_episode + title.adjusted_episode_number))
    source_episode.length

/-- The double-space and space collapsing applied to dot-style names:
`.replace("  ", ".").replace(" ", ".")`. -/
def dot_collapse (s : String) : String :=
  pyReplace (pyReplace s "  " ".") " " "."

/-- The `new_name` built in the rename loop, in dot style or spaced style. -/
def target_file_name (app : ApplicationConfig) (title : Title)
    (episode ext : String) : String :=
  if app.enable_dot_spacing_in_file_name then
    dot_collapse (title.torrent_name ++ ".S" ++ title.season_number ++ "E" ++
      episode ++ "." ++ title.meta ++ title.release_group ++ "." ++ ext)
  else
    title.torrent_name ++ " S" ++ title.season_number ++ "E" ++ episode ++
      " " ++ title.meta ++ "-" ++ title.release_group ++ "." ++ ext

/-- The `new_path` passed to `rename_file`: for qBittorrent the second path
component is replaced, otherwise the bare new name is used. -/
def target_path (app : ApplicationConfig) (title : Title)
    (file_name episode : String) : String :=
  let new_name := target_file_name app title episode (file_ext_name file_name)
  if app.client = "qbittorrent" then replace_second_part_in_path file_name new_name
  else new_name

/-- The base-name extraction used by the partial-season skip check:
`name.split('/')[-1] if '/' in name else name`. -/
def base_file_name (path : String) : String :=
  (pySplit '/' path).getLastD path

/-- One iteration of the rename loop of `process_torrent` for one file:
the episode number appended to `episode_range`, and the `rename_file` call
issued — `none` when the partial-season skip applies.  The outer `none` is
the IndexError of `get_numbers(file.name)[title.episode_index]`. -/
def rename_step (app : ApplicationConfig) (title : Title) (file_name : String) :
    Option (Int × Option (String × String)) :=
  match pyIndex (get_numbers file_name) title.episode_index with
  | none => none
  | some source_episode =>
    let episode := calculated_episode title source_episode
    let new_path := target_path app title file_name episode
    let action :=
      if title.is_partial_season ∧ base_file_name file_name = base_file_name new_path
      then none
      else some (file_name, new_path)
    some (pyInt episode, action)

/-- The `folderName` computed after the loop: episode range notation for a
partial season (single episode or min–max range), bare season otherwise;
`none` is the ValueError of `min`/`max` on an empty range. -/
def season_folder_name (title : Title) (episode_range : List Int) : Option String :=
  if title.is_partial_season then
    match pyListMin episode_range, pyListMax episode_range with
    | some min_ep, some max_ep =>
      if min_ep = max_ep then
        some (title.torrent_name ++ " S" ++ title.season_number ++ "E" ++
          pyZfill (toString min_ep) 2 ++ " " ++ title.meta ++ "[" ++
          title.release_group ++ "]")
      else
        some (title.torrent_name ++ " S" ++ title.season_number ++ "E" ++
          pyZfill (toString min_ep) 2 ++ "-E" ++ pyZfill (toString max_ep) 2 ++
          " " ++ title.meta ++ "[" ++ title.release_group ++ "]")
    | _, _ => none
  else
    some (title.torrent_name ++ " S" ++ title.season_number ++ " " ++
      title.meta ++ "[" ++ title.release_group ++ "]")

/-- `folderName` after the optional dot-style collapsing. -/
def season_folder_styled (app : ApplicationConfig) (title : Title)
    (episode_range : List Int) : Option String :=
  (season_folder_name title episode_range).map
    (fun n => if app.enable_dot_spacing_in_file_name then dot_collapse n else n)

/-- The `new`-branch Title mutation of `process_torrent`: set `guid` and, when
the episode index is the −1 sentinel, resolve it interactively.  `resolver`
models the console prompt: given the extracted numbers it returns the
1-based order number chosen and the adjustment value.  `none` is the
IndexError of `numbers[episode_index]`. -/
def resolve_new_title (resolver : List String → Int × Int) (title : Title)
    (torrent : Torrent) (new : Bool) (first_file_name : String) : Option Title :=
  if new then
    let titleg := { title with guid := torrent.url }
    if titleg.episode_index = -1 then
      let numbers := get_numbers first_file_name
      let chosen := resolver numbers
      let episode_index : Int := chosen.fst - 1
      match pyIndex numbers episode_index with
      | none => none
      | some _ =>
        some { titleg with episode_index := episode_index,
                           adjusted_episode_number := chosen.snd }
    else some titleg
  else some title

/-- The final stage of `process_torrent`, after the rename loop and the
folder name are computed: the folder and torrent renames, then resume (new
torrents) or recheck (updates), then persistence. -/
def process_torrent_tail (app : ApplicationConfig) (resp : ClientResponses)
    (op0 : OperationResult) (title1 : Title) (torrent : Torrent) (new : Bool)
    (first_file_name folder_name : String)
    (steps : List (Int × Option (String × String))) : Option ProcOutcome :=
  let base_effects : Effects :=
    { rename_file_calls := steps.filterMap (fun p => p.snd),
      rename_folder_calls :=
        [(get_folder_name_from_path first_file_name, folder_name)],
      rename_torrent_calls := [folder_name] }
  if app.client = "qbittorrent" then
            if new then
              if resp.resume_result = false then
                some { result := appendFail op0 ("Failed to start torrent: " ++ torrent.name),
                       title := title1,
                       effects := { base_effects with resume_calls := [title1.hash] } }
              else
                some { result := appendSuccess op0,
                       title := title1,
                       effects := { base_effects with
                                    resume_calls := [title1.hash]
                                    update_config_called := true } }
            else
              let op1 :=
                if resp.recheck_async_result.snd ≠ "" then
                  { op0 with operation_logs :=
                      op0.operation_logs ++ [resp.recheck_async_result.snd] }
                else op0
              if resp.recheck_async_result.fst = false then
                some { result := appendFail op1
                         ("Failed to start recheck for torrent: " ++ torrent.name),
                       title := title1,
                       effects := { base_effects with recheck_async_calls := [title1.hash] } }
              else
                some { result := appendSuccess op1,
                       title := title1,
                       effects := { base_effects with
                                    recheck_async_calls := [title1.hash]
                                    update_config_called := true } }
          else
            if new then
              some { result := appendSuccess op0,
                     title := title1,
                     effects := { base_effects with
                                  resume_calls := [title1.hash]
                                  update_config_called := true } }
            else
              some { result := appendSuccess op0,
                     title := title1,
                     effects := { base_effects with
                                  recheck_calls := [title1.hash]
                                  resume_calls := [title1.hash]
                                  update_config_called := true } }

/-- `process_torrent` from the first file name on: episode resolution, the
rename loop, then the tail. -/
def process_torrent_rest (app : ApplicationConfig) (resp : ClientResponses)
    (resolver : List String → Int × Int) (op0 : OperationResult)
    (title : Title) (torrent : Torrent) (new : Bool) : Option ProcOutcome :=
  match resp.files.head? with
  | none => none
  | some first_file_name =>
    match resolve_new_title resolver title torrent new first_file_name with
    | none => none
    | some title1 =>
      match resp.files.mapM (rename_step app title1) with
      | none => none
      | some steps =>
        match season_folder_styled app title1 (steps.map Prod.fst) with
        | none => none
        | some folder_name =>
          process_torrent_tail app resp op0 title1 torrent new
            first_file_name folder_name steps

/-- `process_torrent(config, title, torrent, new)`: assigns the publish date,
adds the torrent (a `None` response short-circuits to FAILURE), stores the
hash, checks the torrent info (qBittorrent branch), then continues with the
rename pipeline.  `none` is an uncaught Python exception. -/
def process_torrent (app : ApplicationConfig) (resp : ClientResponses)
    (resolver : List String → Int × Int) (op0 : OperationResult)
    (title0 : Title) (torrent : Torrent) (new : Bool) : Option ProcOutcome :=
  match resp.add_torrent_response with
  | none =>
    some { result := appendFail op0 ("Torrent already exists: " ++ torrent.name),
           title := { title0 with publish_date := torrent.date },
           effects := {} }
  | some added_hash =>
    if app.client = "qbittorrent" then
      if resp.info_nonempty = false then
        some { result := appendFail op0
                 ("Failed to get torrent info after adding: " ++ torrent.name),
               title := { title0 with
                          publish_date := torrent.date
                          hash := added_hash },
               effects := {} }
      else
        process_torrent_rest app resp resolver op0
          { title0 with
            publish_date := torrent.date
            hash := added_hash }
          torrent new
    else
      process_torrent_rest app resp resolver op0
        { title0 with
          publish_date := torrent.date
          hash := resp.transmission_hash }
        torrent new

/-- Fieldwise concatenation of effects, for composing `update` with the
`process_torrent` it re-enters. -/
def mergeEffects (a b : Effects) : Effects :=
  { rename_file_calls := a.rename_file_calls ++ b.rename_file_calls,
    rename_folder_calls := a.rename_folder_calls ++ b.rename_folder_calls,
    rename_torrent_calls := a.rename_torrent_calls ++ b.rename_torrent_calls,
    resume_calls := a.resume_calls ++ b.resume_calls,
    recheck_async_calls := a.recheck_async_calls ++ b.recheck_async_calls,
    recheck_calls := a.recheck_calls ++ b.recheck_calls,
    delete_calls := a.delete_calls ++ b.delete_calls,
    end_session_calls := a.end_session_calls + b.end_session_calls,
    update_config_called := a.update_config_called || b.update_config_called }

/-- The values the collaborator calls made by `update` would return: the
re-fetched indexer torrent, the file list consulted by the partial-season
folder reset, the delete result, and the responses for the re-entered
`process_torrent`. -/
structure UpdateResponses where
  torrent : Torrent
  update_files : List String := []
  delete_result : Bool := true
  proc : ClientResponses
deriving DecidableEq, Repr

/-- A normally-returning run of `update`. -/
structure UpdateOutcome where
  result : OperationResult
  title : Option Title
  effects : Effects
  requested_guid : String := ""
deriving DecidableEq, Repr

/-- `update(config, title)`: records the Title reference, re-fetches the
torrent by stored guid, compares the stored publish date against the
indexer date (Python substring `in`), and — only when the date differs and
`args.force` is NOT set — resets a partial-season folder, deletes the old
torrent and re-enters `process_torrent`. -/
def update (app : ApplicationConfig) (force : Bool) (resp : UpdateResponses)
    (resolver : List String → Int × Int) (op0 : OperationResult)
    (title0 : Option Title) : Option UpdateOutcome :=
  let op1 := { op0 with titles_references := op0.titles_references ++ [title0] }
  match title0 with
  | none =>
    some { result := appendFail op1 "Title not found",
           title := none, effects := {}, requested_guid := "" }
  | some title =>
    let guid := if title.guid ≠ "" then pyStripChar title.guid '"' else ""
    let torrent := resp.torrent
    let op2 := { op1 with torrent_references := op1.torrent_references ++ [torrent] }
    if pyIn title.publish_date torrent.date = false then
      let op3 := { op2 with operation_logs :=
        op2.operation_logs ++ ["Date is different! : " ++ torrent.name] }
      if force = false then
        let pre_rename : Option (List (String × String)) :=
          if title.is_partial_season ∧ app.client = "qbittorrent" then
            match resp.update_files.head? with
            | none => none
            | some f0 =>
              some [(get_folder_name_from_path f0,
                     title.torrent_name ++ " S" ++ title.season_number)]
          else some []
        match pre_rename with
        | none => none
        | some pre =>
          if resp.delete_result = false then
            some { result := appendFail op3
                     ("Failed to delete old torrent: " ++ torrent.name),
                   title := some title,
                   effects := { rename_folder_calls := pre,
                                delete_calls := [(false, title.hash)] },
                   requested_guid := guid }
          else
            match process_torrent app resp.proc resolver op3 title torrent false with
            | none => none
            | some out =>
              some { result := out.result,
                     title := some out.title,
                     effects := mergeEffects
                       { rename_folder_calls := pre,
                         delete_calls := [(false, title.hash)] } out.effects,
                     requested_guid := guid }
      else
        some { result := op3, title := some title, effects := {},
               requested_guid := guid }
    else
      some { result := { op2 with
               operation_logs := op2.operation_logs ++
                 ["Update not required! : " ++ torrent.name],
               response_code := ResponseCode.SUCCESS },
             title := some title, effects := {}, requested_guid := guid }

/-- `add(config, title, torrent)`: records the references, runs
`process_torrent` with `new=True`, and ends the client session. -/
def add (app : ApplicationConfig) (resp : ClientResponses)
    (resolver : List String → Int × Int) (op0 : OperationResult)
    (title : Title) (torrent : Torrent) : Option ProcOutcome :=
  let op1 := { op0 with titles_references := op0.titles_references ++ [some title],
                        torrent_references := op0.torrent_references ++ [torrent] }
  (process_torrent app resp resolver op1 title torrent true).map
    (fun o => { o with effects :=
      { o.effects with end_session_calls := o.effects.end_session_calls + 1 } })

/-! ## Theorems -/

/-- Helper: the `new`-branch Title mutation never touches the publish date. -/
theorem resolve_new_title_publish_date (resolver : List String → Int × Int)
    (t : Title) (torrent : Torrent) (new : Bool) (first : String) (t1 : Title)
    (h : resolve_new_title resolver t torrent new first = some t1) :
    t1.publish_date = t.publish_date := by
  unfold resolve_new_title at h
  cases new with
  | false =>
    simp only [Bool.false_eq_true, if_false, Option.some.injEq] at h
    rw [← h]
  | true =>
    simp only [if_true] at h
    split at h
    · split at h
      · exact Option.noConfusion h
      · obtain h2 := Option.some.inj h
        rw [← h2]
    · obtain h2 := Option.some.inj h
      rw [← h2]

/-- Helper: a normally-returning tail-stage run keeps the publish date it was
handed and persists only on SUCCESS. -/
theorem process_torrent_rest_outcome (app : ApplicationConfig)
    (resp : ClientResponses) (resolver : List String → Int × Int)
    (op0 : OperationResult) (t : Title) (torrent : Torrent) (new : Bool)
    (out : ProcOutcome)
    (hrun : process_torrent_rest app resp resolver op0 t torrent new = some out) :
    out.title.publish_date = t.publish_date
    ∧ (out.result.response_code = ResponseCode.FAILURE →
        out.effects.update_config_called = false) := by
  unfold process_torrent_rest at hrun
  split at hrun
  · exact Option.noConfusion hrun
  rename_i first hh
  split at hrun
  · exact Option.noConfusion hrun
  rename_i t1 hres
  split at hrun
  · exact Option.noConfusion hrun
  rename_i steps hms
  split at hrun
  · exact Option.noConfusion hrun
  rename_i fname hsf
  have hpd : t1.publish_date = t.publish_date :=
    resolve_new_title_publish_date resolver t torrent new first t1 hres
  unfold process_torrent_tail at hrun
  by_cases hc : app.client = "qbittorrent"
  · rw [if_pos hc] at hrun
    cases new with
    | true =>
      simp only [if_true] at hrun
      by_cases hr : resp.resume_result = false
      · rw [if_pos hr] at hrun
        obtain h := Option.some.inj hrun
        subst h
        exact ⟨hpd, fun _ => rfl⟩
      · rw [if_neg hr] at hrun
        obtain h := Option.some.inj hrun
        subst h
        exact ⟨hpd, fun habs => ResponseCode.noConfusion habs⟩
    | false =>
      simp only [Bool.false_eq_true, if_false] at hrun
      by_cases hk : resp.recheck_async_result.fst = false
      · rw [if_pos hk] at hrun
        obtain h := Option.some.inj hrun
        subst h
        exact ⟨hpd, fun _ => rfl⟩
      · rw [if_neg hk] at hrun
        obtain h := Option.some.inj hrun
        subst h
        exact ⟨hpd, fun habs => ResponseCode.noConfusion habs⟩
  · rw [if_neg hc] at hrun
    cases new with
    | true =>
      simp only [if_true] at hrun
      obtain h := Option.some.inj hrun
      subst h
      exact ⟨hpd, fun habs => ResponseCode.noConfusion habs⟩
    | false =>
      simp only [Bool.false_eq_true, if_false] at hrun
      obtain h := Option.some.inj hrun
      subst h
      exact ⟨hpd, fun habs => ResponseCode.noConfusion habs⟩

/-- C10: `process_torrent` assigns `title.publish_date = torrent.date` as its
very first step, before any client call, so every normally-returning run —
including every FAILURE return (torrent already exists, torrent info not
retrievable, resume or recheck-start failure) — carries the new date in the
in-memory Title, while on FAILURE `update_config` was never reached. -/
theorem process_torrent_sets_publish_date_first (app : ApplicationConfig)
    (resp : ClientResponses) (resolver : List String → Int × Int)
    (op0 : OperationResult) (title0 : Title) (torrent : Torrent) (new : Bool)
    (out : ProcOutcome)
    (hrun : process_torrent app resp resolver op0 title0 torrent new = some out) :
    out.title.publish_date = torrent.date
    ∧ (out.result.response_code = ResponseCode.FAILURE →
        out.effects.update_config_called = false) := by
  unfold process_torrent at hrun
  split at hrun
  · obtain h := Option.some.inj hrun
    subst h
    exact ⟨rfl, fun _ => rfl⟩
  rename_i hsh hadd
  by_cases hc : app.client = "qbittorrent"
  · rw [if_pos hc] at hrun
    by_cases hinfo : resp.info_nonempty = false
    · rw [if_pos hinfo] at hrun
      obtain h := Option.some.inj hrun
      subst h
      exact ⟨rfl, fun _ => rfl⟩
    · rw [if_neg hinfo] at hrun
      have h := process_torrent_rest_outcome app resp resolver op0
        { title0 with
          publish_date := torrent.date
          hash := hsh } torrent new out hrun
      exact ⟨by rw [h.1], h.2⟩
  · rw [if_neg hc] at hrun
    have h := process_torrent_rest_outcome app resp resolver op0
      { title0 with
        publish_date := torrent.date
        hash := resp.transmission_hash } torrent new out hrun
    exact ⟨by rw [h.1], h.2⟩

/-- C10, witness: the FAILURE return for an already-present torrent carries
the new publish date without persisting. -/
theorem process_torrent_sets_publish_date_first_witness :
    ({ result := { response_code := ResponseCode.FAILURE,
                   operation_logs := ["Torrent already exists: My Show"] },
       title := { code_name := "MyShow", publish_date := "2024-01-02" },
       effects := {} } : ProcOutcome).title.publish_date = "2024-01-02"
  ∧ (({ result := { response_code := ResponseCode.FAILURE,
                    operation_logs := ["Torrent already exists: My Show"] },
        title := { code_name := "MyShow", publish_date := "2024-01-02" },
        effects := {} } : ProcOutcome).result.response_code = ResponseCode.FAILURE →
      ({ result := { response_code := ResponseCode.FAILURE,
                     operation_logs := ["Torrent already exists: My Show"] },
         title := { code_name := "MyShow", publish_date := "2024-01-02" },
         effects := {} } : ProcOutcome).effects.update_config_called = false) := by
  exact process_torrent_sets_publish_date_first
    { client := "qbittorrent", enable_dot_spacing_in_file_name := true }
    { add_torrent_response := none } (fun _ => (1, 0))
    { response_code := ResponseCode.SUCCESS } { code_name := "MyShow" }
    { name := "My Show", date := "2024-01-02" } false
    { result := { response_code := ResponseCode.FAILURE,
                  operation_logs := ["Torrent already exists: My Show"] },
      title := { code_name := "MyShow", publish_date := "2024-01-02" },
      effects := {} } rfl

/-- C4, counterexample: the state classes do not form a partition — the
qBittorrent state string "checkingDL" is classified both ACTIVE and
CHECKING (and so is "checkingUP"). -/
theorem torrent_state_checking_overlap :
    "checkingDL" ∈ TorrentState.active_states ∧
    "checkingDL" ∈ TorrentState.checking_states ∧
    "checkingUP" ∈ TorrentState.active_states ∧
    "checkingUP" ∈ TorrentState.checking_states := by
  decide

/-- C4, amended: ACTIVE and CHECKING overlap exactly in "checkingDL" and
"checkingUP"; every other pair of the four state classes is disjoint (the
filter of one class by membership in the other is empty). -/
theorem torrent_state_partition_amended :
    TorrentState.active_states.filter
      (fun s => TorrentState.checking_states.contains s) = ["checkingDL", "checkingUP"]
  ∧ TorrentState.active_states.filter
      (fun s => TorrentState.stopped_states.contains s) = []
  ∧ TorrentState.active_states.filter
      (fun s => TorrentState.error_states.contains s) = []
  ∧ TorrentState.checking_states.filter
      (fun s => TorrentState.stopped_states.contains s) = []
  ∧ TorrentState.checking_states.filter
      (fun s => TorrentState.error_states.contains s) = []
  ∧ TorrentState.stopped_states.filter
      (fun s => TorrentState.error_states.contains s) = [] := by
  decide

/-- C1: evaluating `update` with the force flag set and a changed publish
date — the code logs "Date is different!" but issues no delete, never
re-enters `process_torrent` (no rename/resume/recheck calls), persists
nothing, and returns with the response code it was handed; the guard
`if not config.args.force` makes `force` suppress the re-add path instead
of taking it, and the date comparison it was meant to skip still runs
(second conjunct: with `force` set and an unchanged date the run returns
"Update not required!"). -/
theorem update_with_force_takes_no_readd_action :
    ((update { client := "qbittorrent", enable_dot_spacing_in_file_name := true } true
      { torrent := { name := "My Show", date := "2024-01-02" },
        proc := { add_torrent_response := some "newhash",
                  files := ["My Show S01/My Show S01E01.mkv"] } }
      (fun _ => (1, 0))
      { response_code := ResponseCode.SUCCESS }
      (some { code_name := "MyShow", episode_index := 0, season_number := "01",
              torrent_name := "My Show", publish_date := "2024-01-01",
              hash := "oldhash", guid := "t123" })).map
      (fun o => (o.result.response_code, o.result.operation_logs,
                 o.effects.delete_calls, o.effects.update_config_called,
                 o.effects.rename_file_calls, o.effects.resume_calls,
                 o.effects.recheck_async_calls)) =
      some (ResponseCode.SUCCESS, ["Date is different! : My Show"], [], false, [], [], []))
  ∧ ((update { client := "qbittorrent", enable_dot_spacing_in_file_name := true } true
      { torrent := { name := "My Show", date := "2024-01-02" },
        proc := { add_torrent_response := some "newhash",
                  files := ["My Show S01/My Show S01E01.mkv"] } }
      (fun _ => (1, 0))
      { response_code := ResponseCode.SUCCESS }
      (some { code_name := "MyShow", episode_index := 0, season_number := "01",
              torrent_name := "My Show", publish_date := "2024-01-02",
              hash := "oldhash", guid := "t123" })).map
      (fun o => (o.result.response_code, o.result.operation_logs,
                 o.effects.delete_calls, o.effects.update_config_called)) =
      some (ResponseCode.SUCCESS, ["Update not required! : My Show"], [], false)) := by
  exact ⟨rfl, rfl⟩

/-- C2, counterexample: when `add_torrent` returns `None` (torrent already
present), `process_torrent` logs "Torrent already exists" and returns
response code FAILURE — not the success the claim asserts. -/
theorem process_torrent_add_none_is_failure_at_input :
    ((process_torrent { client := "qbittorrent", enable_dot_spacing_in_file_name := true }
        { add_torrent_response := none } (fun _ => (1, 0))
        { response_code := ResponseCode.SUCCESS } { code_name := "MyShow" }
        { name := "My Show", date := "2024-01-02" } false).map
      (fun o => (o.result.response_code, o.result.operation_logs))) =
      some (ResponseCode.FAILURE, ["Torrent already exists: My Show"]) := by
  rfl

/-- C2, amended: a `None` from `add_torrent` (torrent already present or an
add race — the client itself returns `None` on a pre-existing hash and on a
409 conflict) is a short-circuit, but to FAILURE: the workflow appends
"Torrent already exists: {name}", sets response code FAILURE, issues no
further client calls, persists nothing, and raises no exception. -/
theorem process_torrent_add_none_short_circuit :
    (∀ (hsh : String) (c v : Bool), add_torrent_client hsh true c v = none)
  ∧ (∀ (hsh : String) (v : Bool), add_torrent_client hsh false true v = none)
  ∧ (∀ app resp resolver op0 title0 torrent new,
      resp.add_torrent_response = none →
      process_torrent app resp resolver op0 title0 torrent new =
        some { result := appendFail op0 ("Torrent already exists: " ++ torrent.name),
               title := { title0 with publish_date := torrent.date },
               effects := {} }) := by
  refine ⟨fun hsh c v => rfl, fun hsh v => rfl, ?_⟩
  intro app resp resolver op0 title0 torrent new h
  unfold process_torrent
  rw [h]

/-- C2, witness: the amended short-circuit at a concrete input. -/
theorem process_torrent_add_none_short_circuit_witness :
    add_torrent_client "hash123" true false true = none
  ∧ process_torrent { client := "qbittorrent", enable_dot_spacing_in_file_name := true }
      { add_torrent_response := none } (fun _ => (1, 0))
      { response_code := ResponseCode.SUCCESS } { code_name := "MyShow" }
      { name := "My Show", date := "2024-01-02" } false =
      some { result := { response_code := ResponseCode.FAILURE,
                         operation_logs := ["Torrent already exists: My Show"] },
             title := { code_name := "MyShow", publish_date := "2024-01-02" },
             effects := {} } := by
  refine ⟨process_torrent_add_none_short_circuit.1 "hash123" false true, ?_⟩
  rw [process_torrent_add_none_short_circuit.2.2
    { client := "qbittorrent", enable_dot_spacing_in_file_name := true }
    { add_torrent_response := none } (fun _ => (1, 0))
    { response_code := ResponseCode.SUCCESS } { code_name := "MyShow" }
    { name := "My Show", date := "2024-01-02" } false rfl]
  rfl

/-- C5, counterexample: the torrent is already ACTIVE ("downloading") and is
never observed CHECKING during the quick wait, yet `recheck_and_resume_async`
does not take the synchronous "Torrent already active" return — the quick
wait treats ACTIVE as started, a supervised background task is spawned, and
a "monitoring" message is returned. -/
theorem recheck_async_spawns_despite_active :
    recheck_and_resume_async [] "hash1" (some "pausedDL") none [some "downloading"] none =
      { started := true, message := "Recheck checking, monitoring in background",
        spawned := true, tasks := ["hash1"] }
  ∧ TorrentState.active_states.contains "downloading" = true
  ∧ TorrentState.checking_states.contains "downloading" = false := by
  exact ⟨rfl, by decide, by decide⟩

/-- C5, amended: the synchronous "Torrent already active" success without a
background task is taken only when the quick wait FAILS (times out or loses
the torrent) and the follow-up lookup then finds the torrent ACTIVE; whenever
the quick wait reports started — which it does as soon as it observes a
CHECKING or an ACTIVE state — a supervised background task is spawned and
the call returns the "monitoring" message. -/
theorem recheck_async_sync_active_only_after_quickwait_fails
    (tasks : List String) (torrent_hash s0 post : String)
    (trace : List (Option String)) (post_lookup : Option String)
    (hmem : tasks.contains torrent_hash = false) :
    (quick_wait_for_recheck_start trace = false →
      TorrentState.active_states.contains post = true →
      recheck_and_resume_async tasks torrent_hash (some s0) none trace (some post) =
        { started := true, message := "Torrent already active: " ++ post,
          spawned := false, tasks := tasks })
  ∧ (quick_wait_for_recheck_start trace = true →
      recheck_and_resume_async tasks torrent_hash (some s0) none trace post_lookup =
        { started := true, message := "Recheck checking, monitoring in background",
          spawned := true, tasks := tasks ++ [torrent_hash] }) := by
  constructor
  · intro hq hact
    have hm : torrent_hash ∉ tasks := by simpa using hmem
    have ha : post ∈ TorrentState.active_states := by simpa using hact
    unfold recheck_and_resume_async
    simp [hm, hq, ha]
  · intro hq
    have hm : torrent_hash ∉ tasks := by simpa using hmem
    unfold recheck_and_resume_async
    simp [hm, hq]

/-- C5, witness: the amended characterization at a concrete input — the
quick wait only ever observes "stoppedDL" (neither CHECKING nor ACTIVE) and
fails, the follow-up lookup finds "uploading", and the call answers
synchronously without spawning. -/
theorem recheck_async_sync_path_witness :
    recheck_and_resume_async [] "hash2" (some "stoppedDL") none
      [some "stoppedDL"] (some "uploading") =
      { started := true, message := "Torrent already active: uploading",
        spawned := false, tasks := [] } := by
  exact (recheck_async_sync_active_only_after_quickwait_fails [] "hash2" "stoppedDL"
    "uploading" [some "stoppedDL"] (some "uploading") rfl).1 rfl rfl

/-- C9: at most one supervised background recheck task per torrent
identifier.  A call for an identifier already in the task map is a no-op
returning "already in progress" with the map unchanged; a task is spawned
only for an identifier not in the map, and then the map gains exactly that
identifier; when no task is spawned the map is unchanged; every terminal
outcome of the background completion removes the identifier from the map;
and both operations preserve the no-duplicates invariant of the map. -/
theorem recheck_background_task_uniqueness :
    (∀ (tasks : List String) (torrent_hash s0 : String) (err : Option String)
        (trace : List (Option String)) (post : Option String),
        tasks.contains torrent_hash = true →
        recheck_and_resume_async tasks torrent_hash (some s0) err trace post =
          { started := true, message := "Recheck already in progress (monitored)",
            spawned := false, tasks := tasks })
  ∧ (∀ tasks torrent_hash init err trace post,
        (recheck_and_resume_async tasks torrent_hash init err trace post).spawned = true →
          tasks.contains torrent_hash = false ∧
          (recheck_and_resume_async tasks torrent_hash init err trace post).tasks =
            tasks ++ [torrent_hash])
  ∧ (∀ tasks torrent_hash init err trace post,
        (recheck_and_resume_async tasks torrent_hash init err trace post).spawned = false →
        (recheck_and_resume_async tasks torrent_hash init err trace post).tasks = tasks)
  ∧ (∀ (tasks : List String) (torrent_hash : String) (c : BgOutcomeCase),
        (background_recheck_completion tasks torrent_hash c).1 = tasks.erase torrent_hash)
  ∧ (∀ tasks torrent_hash init err trace post, tasks.Nodup →
        ((recheck_and_resume_async tasks torrent_hash init err trace post).tasks).Nodup)
  ∧ (∀ (tasks : List String) (torrent_hash : String) (c : BgOutcomeCase), tasks.Nodup →
        ((background_recheck_completion tasks torrent_hash c).1).Nodup) := by
  have hcases : ∀ (tasks : List String) (torrent_hash : String) (init err : Option String)
      (trace : List (Option String)) (post : Option String),
      ((recheck_and_resume_async tasks torrent_hash init err trace post).spawned = true ∧
        tasks.contains torrent_hash = false ∧
        (recheck_and_resume_async tasks torrent_hash init err trace post).tasks =
          tasks ++ [torrent_hash]) ∨
      ((recheck_and_resume_async tasks torrent_hash init err trace post).spawned = false ∧
        (recheck_and_resume_async tasks torrent_hash init err trace post).tasks = tasks) := by
    intro tasks torrent_hash init err trace post
    cases init with
    | none => exact Or.inr ⟨rfl, rfl⟩
    | some s =>
      by_cases hmem : torrent_hash ∈ tasks
      · exact Or.inr (by unfold recheck_and_resume_async; simp [hmem])
      · cases err with
        | some e => exact Or.inr (by unfold recheck_and_resume_async; simp [hmem])
        | none =>
          by_cases hq : quick_wait_for_recheck_start trace = true
          · refine Or.inl ⟨?_, by simpa using hmem, ?_⟩ <;>
              (unfold recheck_and_resume_async; simp [hmem, hq])
          · have hq' : quick_wait_for_recheck_start trace = false := by simpa using hq
            cases post with
            | none =>
              refine Or.inl ⟨?_, by simpa using hmem, ?_⟩ <;>
                (unfold recheck_and_resume_async; simp [hmem, hq'])
            | some s2 =>
              by_cases hact : s2 ∈ TorrentState.active_states
              · exact Or.inr (by unfold recheck_and_resume_async; simp [hmem, hq', hact])
              · by_cases herr : s2 ∈ TorrentState.error_states
                · exact Or.inr
                    (by unfold recheck_and_resume_async; simp [hmem, hq', hact, herr])
                · refine Or.inl ⟨?_, by simpa using hmem, ?_⟩ <;>
                    (unfold recheck_and_resume_async; simp [hmem, hq', hact, herr])
  refine ⟨?_, ?_, ?_, ?_, ?_, ?_⟩
  · intro tasks torrent_hash s0 err trace post hmem
    have hm : torrent_hash ∈ tasks := by simpa using hmem
    unfold recheck_and_resume_async
    simp [hm]
  · intro tasks torrent_hash init err trace post hsp
    rcases hcases tasks torrent_hash init err trace post with ⟨_, h1, h2⟩ | ⟨h1, _⟩
    · exact ⟨h1, h2⟩
    · rw [hsp] at h1
      cases h1
  · intro tasks torrent_hash init err trace post hsp
    rcases hcases tasks torrent_hash init err trace post with ⟨h1, _, _⟩ | ⟨_, h2⟩
    · rw [hsp] at h1
      cases h1
    · exact h2
  · intro tasks torrent_hash c
    cases c <;> rfl
  · intro tasks torrent_hash init err trace post hnd
    rcases hcases tasks torrent_hash init err trace post with ⟨_, h1, h2⟩ | ⟨_, h2⟩
    · rw [h2]
      simp [List.nodup_append]
      exact ⟨hnd, by simpa using h1⟩
    · rw [h2]
      exact hnd
  · intro tasks torrent_hash c hnd
    cases c <;> exact hnd.erase torrent_hash

/-- C9, witness: a second call for an identifier already supervised is a
no-op at a concrete input, and the background completion removes the entry. -/
theorem recheck_background_task_uniqueness_witness :
    recheck_and_resume_async ["hash3"] "hash3" (some "pausedDL") none [] none =
      { started := true, message := "Recheck already in progress (monitored)",
        spawned := false, tasks := ["hash3"] }
  ∧ (background_recheck_completion ["hash3"] "hash3" BgOutcomeCase.cancelled).1 = []
  ∧ ((background_recheck_completion ["hash3"] "hash3" BgOutcomeCase.cancelled).1).Nodup := by
  refine ⟨recheck_background_task_uniqueness.1 ["hash3"] "hash3" "pausedDL" none [] none rfl,
    ?_, ?_⟩
  · rw [recheck_background_task_uniqueness.2.2.2.1 ["hash3"] "hash3" BgOutcomeCase.cancelled]
    rfl
  · exact recheck_background_task_uniqueness.2.2.2.2.2 ["hash3"] "hash3"
      BgOutcomeCase.cancelled (by simp)

/-- Helper: the retry loop on a run whose every attempt fails verification
returns `false` after consuming all attempts, having slept the capped
geometric backoff sequence. -/
theorem retryGo_all_verify_false (cfg : RetryConfig) (name : String)
    (outcome : Nat → AttemptOutcome)
    (hout : ∀ i, outcome i = AttemptOutcome.verify false) :
    ∀ (remaining attempt : Nat) (delay : Rat) (slept : List Rat),
      attempt + remaining = cfg.max_attempts → 1 ≤ remaining →
      retryGo cfg name outcome remaining attempt delay slept =
        (Except.ok false, slept ++ capped_backoff cfg (remaining - 1) delay) := by
  intro remaining
  induction remaining with
  | zero => omega
  | succ r ih =>
    intro attempt delay slept hsum _
    unfold retryGo
    simp only [hout attempt]
    by_cases hlt : attempt < cfg.max_attempts - 1
    · rw [if_pos hlt]
      have hr : 1 ≤ r := by omega
      rw [ih (attempt + 1) (min (delay * cfg.backoff_factor) cfg.max_delay)
        (slept ++ [delay]) (by omega) hr]
      have h2 : r + 1 - 1 = (r - 1) + 1 := by omega
      rw [h2, show capped_backoff cfg ((r - 1) + 1) delay =
        delay :: capped_backoff cfg (r - 1)
          (min (delay * cfg.backoff_factor) cfg.max_delay) from rfl]
      simp
    · rw [if_neg hlt]
      have hr : r = 0 := by omega
      subst hr
      rw [show capped_backoff cfg (0 + 1 - 1) delay = [] from rfl]
      simp

/-- Helper: the retry loop on a run whose every attempt raises propagates a
wrapped error naming the operation and the attempt count, after the same
capped geometric backoff sequence. -/
theorem retryGo_all_raises (cfg : RetryConfig) (name e : String)
    (outcome : Nat → AttemptOutcome)
    (hout : ∀ i, outcome i = AttemptOutcome.raises e) :
    ∀ (remaining attempt : Nat) (delay : Rat) (slept : List Rat),
      attempt + remaining = cfg.max_attempts → 1 ≤ remaining →
      retryGo cfg name outcome remaining attempt delay slept =
        (Except.error ("Failed to " ++ name ++ " after " ++
          toString cfg.max_attempts ++ " attempts: " ++ e),
         slept ++ capped_backoff cfg (remaining - 1) delay) := by
  intro remaining
  induction remaining with
  | zero => omega
  | succ r ih =>
    intro attempt delay slept hsum _
    unfold retryGo
    simp only [hout attempt]
    by_cases hlt : attempt < cfg.max_attempts - 1
    · rw [if_pos hlt]
      have hr : 1 ≤ r := by omega
      rw [ih (attempt + 1) (min (delay * cfg.backoff_factor) cfg.max_delay)
        (slept ++ [delay]) (by omega) hr]
      have h2 : r + 1 - 1 = (r - 1) + 1 := by omega
      rw [h2, show capped_backoff cfg ((r - 1) + 1) delay =
        delay :: capped_backoff cfg (r - 1)
          (min (delay * cfg.backoff_factor) cfg.max_delay) from rfl]
      simp
    · rw [if_neg hlt]
      have hr : r = 0 := by omega
      subst hr
      rw [show capped_backoff cfg (0 + 1 - 1) delay = [] from rfl]
      simp

/-- C7: `_retry_operation` on a run whose verification fails at every
attempt sleeps delays that grow as previous delay × backoff factor capped at
the maximum delay (the capped geometric sequence, one sleep between each of
the `max_attempts` attempts) and then returns `false`; on a run where every
attempt raises, it retries with the identical backoff and finally raises the
wrapped error "Failed to {name} after {max_attempts} attempts: {e}". -/
theorem retry_operation_backoff_and_wrap (cfg : RetryConfig) (name e : String)
    (outF outR : Nat → AttemptOutcome) (hmax : 1 ≤ cfg.max_attempts)
    (hF : ∀ i, outF i = AttemptOutcome.verify false)
    (hR : ∀ i, outR i = AttemptOutcome.raises e) :
    retry_operation cfg outF name =
      (Except.ok false,
       capped_backoff cfg (cfg.max_attempts - 1) cfg.initial_delay)
  ∧ retry_operation cfg outR name =
      (Except.error ("Failed to " ++ name ++ " after " ++
        toString cfg.max_attempts ++ " attempts: " ++ e),
       capped_backoff cfg (cfg.max_attempts - 1) cfg.initial_delay) := by
  constructor
  · rw [retry_operation,
      retryGo_all_verify_false cfg name outF hF cfg.max_attempts 0
        cfg.initial_delay [] (by omega) hmax]
    simp
  · rw [retry_operation,
      retryGo_all_raises cfg name e outR hR cfg.max_attempts 0
        cfg.initial_delay [] (by omega) hmax]
    simp

/-- C7, witness: three attempts with initial delay 1, backoff factor 2 and
cap 2 sleep delays 1 then 2; all-failing verification yields `false`, an
always-raising run yields the wrapped message with the attempt count. -/
theorem retry_operation_backoff_and_wrap_witness :
    retry_operation
      { max_attempts := 3, initial_delay := 1, max_delay := 2,
        backoff_factor := 2, verification_delay := 0 }
      (fun _ => AttemptOutcome.verify false) "resume torrent" =
      (Except.ok false, [1, 2])
  ∧ retry_operation
      { max_attempts := 3, initial_delay := 1, max_delay := 2,
        backoff_factor := 2, verification_delay := 0 }
      (fun _ => AttemptOutcome.raises "boom") "resume torrent" =
      (Except.error "Failed to resume torrent after 3 attempts: boom", [1, 2]) := by
  have h := retry_operation_backoff_and_wrap
    { max_attempts := 3, initial_delay := 1, max_delay := 2,
      backoff_factor := 2, verification_delay := 0 }
    "resume torrent" "boom"
    (fun _ => AttemptOutcome.verify false) (fun _ => AttemptOutcome.raises "boom")
    (by decide) (fun _ => rfl) (fun _ => rfl)
  constructor
  · rw [h.1]
    norm_num [capped_backoff]
  · rw [h.2]
    norm_num [capped_backoff]
    rfl

/-- Helper: a list is an initial segment of itself extended. -/
theorem listStartsWith_self_append (a b : List Char) :
    listStartsWith a (a ++ b) = true := by
  induction a with
  | nil => rfl
  | cons c cs ih => simp [listStartsWith, ih]

/-- Helper: a list occurs in itself extended on the right. -/
theorem listContainsSeq_self_append (a b : List Char) :
    listContainsSeq a (a ++ b) = true := by
  cases a with
  | nil => cases b <;> rfl
  | cons c cs =>
    simp [listContainsSeq, listStartsWith, listStartsWith_self_append]

/-- Helper: a string is a Python substring of itself extended on the right. -/
theorem pyIn_prefix (p s : String) : pyIn p (p ++ s) = true := by
  unfold pyIn
  rw [show (p ++ s).toList = p.toList ++ s.toList by simp [String.toList]]
  exact listContainsSeq_self_append p.toList s.toList

/-- Helper: a successful `mapM` over `Option` preserves the length. -/
theorem mapM_option_length {α β : Type} (f : α → Option β) :
    ∀ (l : List α) (r : List β), l.mapM f = some r → r.length = l.length := by
  intro l
  induction l with
  | nil =>
    intro r h
    simp only [List.mapM_nil, pure, Option.some.injEq] at h
    rw [← h]
    rfl
  | cons a l ih =>
    intro r h
    rw [List.mapM_cons] at h
    rcases hfa : f a with _ | b
    · rw [hfa] at h
      simp at h
    · rw [hfa] at h
      rcases hml : l.mapM f with _ | bs
      · rw [hml] at h
        simp at h
      · rw [hml] at h
        simp at h
        subst h
        simp [ih bs hml]

/-- Helper: under the qBittorrent success path (torrent added, info found,
files present, episode resolution, rename loop and folder name all defined),
`process_torrent` reduces to its tail stage. -/
theorem process_torrent_qbit_reduction
    (app : ApplicationConfig) (resp : ClientResponses)
    (resolver : List String → Int × Int) (op0 : OperationResult)
    (title0 : Title) (torrent : Torrent) (new : Bool)
    (hsh first : String) (rest : List String) (title1 : Title)
    (steps : List (Int × Option (String × String))) (folder : String)
    (hc : app.client = "qbittorrent")
    (hadd : resp.add_torrent_response = some hsh)
    (hinfo : resp.info_nonempty = true)
    (hfiles : resp.files = first :: rest)
    (hres : resolve_new_title resolver
      { title0 with
        publish_date := torrent.date
        hash := hsh } torrent new first = some title1)
    (hsteps : resp.files.mapM (rename_step app title1) = some steps)
    (hfold : season_folder_styled app title1 (steps.map Prod.fst) = some folder) :
    process_torrent app resp resolver op0 title0 torrent new =
      process_torrent_tail app resp op0 title1 torrent new first folder steps := by
  rw [hfiles] at hsteps
  have hsteps2 : List.mapM.loop (rename_step app title1) (first :: rest) [] =
      some steps := hsteps
  unfold process_torrent process_torrent_rest
  simp [hadd, hc, hinfo, hfiles, hres, hsteps, hsteps2, hfold]

/-- C3, counterexample: the rename operations' verification results are
discarded by the workflow — a run in which every rename helper reports
verification failure (returns false) still ends with SUCCESS and issues no
FAILURE log, refuting the claim that every failing state-changing operation
maps to FAILURE. -/
theorem process_torrent_rename_failures_still_success :
    (process_torrent { client := "qbittorrent", enable_dot_spacing_in_file_name := true }
      { add_torrent_response := some "hash123",
        files := ["My Show S01/My Show S01E01.mkv"],
        rename_file_result := false, rename_folder_result := false,
        rename_torrent_result := false }
      (fun _ => (1, 0)) { response_code := ResponseCode.FAILURE }
      { code_name := "MyShow", episode_index := 0, season_number := "01",
        torrent_name := "My Show", release_group := "RG", meta := "WEB" }
      { name := "My Show", date := "2024-01-02" } true).map
      (fun o => (o.result.response_code, o.result.operation_logs,
                 o.effects.rename_file_calls.length)) =
    some (ResponseCode.SUCCESS, [], 1) := by
  rfl

/-- C3, amended: the workflow never consults the boolean results of
`rename_file`, `rename_folder` and `rename_torrent` (first conjunct: the run
is invariant under them), so a rename verification failure does not produce
FAILURE; the operations whose failure IS mapped to FAILURE plus a log entry,
with no exception raised, are `resume_torrent` on the new-add path (second
conjunct) and `recheck_and_resume_async` on the update path (third
conjunct), in both cases without persisting. -/
theorem process_torrent_expected_failure_mapping :
    (∀ (app : ApplicationConfig) (resp : ClientResponses)
        (resolver : List String → Int × Int) (op0 : OperationResult)
        (title0 : Title) (torrent : Torrent) (new : Bool) (r1 r2 r3 : Bool),
        process_torrent app
          { resp with
            rename_file_result := r1
            rename_folder_result := r2
            rename_torrent_result := r3 } resolver op0 title0 torrent new =
        process_torrent app resp resolver op0 title0 torrent new)
  ∧ (∀ (app : ApplicationConfig) (resp : ClientResponses)
        (resolver : List String → Int × Int) (op0 : OperationResult)
        (title0 : Title) (torrent : Torrent) (hsh first : String)
        (rest : List String) (title1 : Title)
        (steps : List (Int × Option (String × String))) (folder : String)
        (out : ProcOutcome),
        app.client = "qbittorrent" →
        resp.add_torrent_response = some hsh →
        resp.info_nonempty = true →
        resp.files = first :: rest →
        resolve_new_title resolver
          { title0 with
            publish_date := torrent.date
            hash := hsh } torrent true first = some title1 →
        resp.files.mapM (rename_step app title1) = some steps →
        season_folder_styled app title1 (steps.map Prod.fst) = some folder →
        resp.resume_result = false →
        process_torrent app resp resolver op0 title0 torrent true = some out →
        out.result.response_code = ResponseCode.FAILURE
        ∧ ("Failed to start torrent: " ++ torrent.name) ∈ out.result.operation_logs
        ∧ out.effects.update_config_called = false)
  ∧ (∀ (app : ApplicationConfig) (resp : ClientResponses)
        (resolver : List String → Int × Int) (op0 : OperationResult)
        (title0 : Title) (torrent : Torrent) (hsh first : String)
        (rest : List String) (title1 : Title)
        (steps : List (Int × Option (String × String))) (folder : String)
        (out : ProcOutcome),
        app.client = "qbittorrent" →
        resp.add_torrent_response = some hsh →
        resp.info_nonempty = true →
        resp.files = first :: rest →
        resolve_new_title resolver
          { title0 with
            publish_date := torrent.date
            hash := hsh } torrent false first = some title1 →
        resp.files.mapM (rename_step app title1) = some steps →
        season_folder_styled app title1 (steps.map Prod.fst) = some folder →
        resp.recheck_async_result.fst = false →
        process_torrent app resp resolver op0 title0 torrent false = some out →
        out.result.response_code = ResponseCode.FAILURE
        ∧ ("Failed to start recheck for torrent: " ++ torrent.name) ∈
            out.result.operation_logs
        ∧ out.effects.update_config_called = false) := by
  refine ⟨?_, ?_, ?_⟩
  · intro app resp resolver op0 title0 torrent new r1 r2 r3
    rfl
  · intro app resp resolver op0 title0 torrent hsh first rest title1 steps folder out
      hc hadd hinfo hfiles hres hsteps hfold hresume hrun
    rw [process_torrent_qbit_reduction app resp resolver op0 title0 torrent true
      hsh first rest title1 steps folder hc hadd hinfo hfiles hres hsteps hfold] at hrun
    unfold process_torrent_tail at hrun
    rw [if_pos hc] at hrun
    simp only [if_true] at hrun
    rw [if_pos hresume] at hrun
    obtain h := Option.some.inj hrun
    subst h
    refine ⟨rfl, ?_, rfl⟩
    simp [appendFail]
  · intro app resp resolver op0 title0 torrent hsh first rest title1 steps folder out
      hc hadd hinfo hfiles hres hsteps hfold hrecheck hrun
    rw [process_torrent_qbit_reduction app resp resolver op0 title0 torrent false
      hsh first rest title1 steps folder hc hadd hinfo hfiles hres hsteps hfold] at hrun
    unfold process_torrent_tail at hrun
    rw [if_pos hc] at hrun
    simp only [Bool.false_eq_true, if_false] at hrun
    rw [if_pos hrecheck] at hrun
    obtain h := Option.some.inj hrun
    subst h
    refine ⟨rfl, ?_, rfl⟩
    by_cases hm : resp.recheck_async_result.snd ≠ ""
    · rw [if_pos hm]
      simp [appendFail]
    · rw [if_neg hm]
      simp [appendFail]

/-- C3, witness: the resume-failure mapping at a concrete input, plus the
rename-result invariance at a concrete input. -/
theorem process_torrent_expected_failure_mapping_witness :
    (process_torrent { client := "qbittorrent", enable_dot_spacing_in_file_name := false }
      { add_torrent_response := some "h1",
        files := ["Show S01/Show S01E01.mkv"], resume_result := false }
      (fun _ => (1, 0)) { response_code := ResponseCode.SUCCESS }
      { code_name := "Show", episode_index := 1, season_number := "01",
        torrent_name := "Show", release_group := "RG", meta := "WEB" }
      { name := "Show", date := "2024-01-02" } true).map
      (fun o => (o.result.response_code, o.effects.update_config_called)) =
      some (ResponseCode.FAILURE, false)
  ∧ process_torrent { client := "qbittorrent", enable_dot_spacing_in_file_name := false }
      { add_torrent_response := some "h1",
        files := ["Show S01/Show S01E01.mkv"],
        rename_file_result := false, rename_folder_result := false,
        rename_torrent_result := false, resume_result := false }
      (fun _ => (1, 0)) { response_code := ResponseCode.SUCCESS }
      { code_name := "Show", episode_index := 1, season_number := "01",
        torrent_name := "Show", release_group := "RG", meta := "WEB" }
      { name := "Show", date := "2024-01-02" } true =
    process_torrent { client := "qbittorrent", enable_dot_spacing_in_file_name := false }
      { add_torrent_response := some "h1",
        files := ["Show S01/Show S01E01.mkv"], resume_result := false }
      (fun _ => (1, 0)) { response_code := ResponseCode.SUCCESS }
      { code_name := "Show", episode_index := 1, season_number := "01",
        torrent_name := "Show", release_group := "RG", meta := "WEB" }
      { name := "Show", date := "2024-01-02" } true := by
  constructor
  · cases hp : process_torrent
        { client := "qbittorrent", enable_dot_spacing_in_file_name := false }
        { add_torrent_response := some "h1",
          files := ["Show S01/Show S01E01.mkv"], resume_result := false }
        (fun _ => (1, 0)) { response_code := ResponseCode.SUCCESS }
        { code_name := "Show", episode_index := 1, season_number := "01",
          torrent_name := "Show", release_group := "RG", meta := "WEB" }
        { name := "Show", date := "2024-01-02" } true with
    | none => exact absurd hp (by decide)
    | some out =>
      have h := process_torrent_expected_failure_mapping.2.1
        { client := "qbittorrent", enable_dot_spacing_in_file_name := false }
        { add_torrent_response := some "h1",
          files := ["Show S01/Show S01E01.mkv"], resume_result := false }
        (fun _ => (1, 0)) { response_code := ResponseCode.SUCCESS }
        { code_name := "Show", episode_index := 1, season_number := "01",
          torrent_name := "Show", release_group := "RG", meta := "WEB" }
        { name := "Show", date := "2024-01-02" } "h1" "Show S01/Show S01E01.mkv"
        [] _ _ _ out rfl rfl rfl rfl rfl rfl rfl rfl hp
      simp [h.1, h.2.2]
  · exact process_torrent_expected_failure_mapping.1
      { client := "qbittorrent", enable_dot_spacing_in_file_name := false }
      { add_torrent_response := some "h1",
        files := ["Show S01/Show S01E01.mkv"], resume_result := false }
      (fun _ => (1, 0)) { response_code := ResponseCode.SUCCESS }
      { code_name := "Show", episode_index := 1, season_number := "01",
        torrent_name := "Show", release_group := "RG", meta := "WEB" }
      { name := "Show", date := "2024-01-02" } true false false false

/-- C6: in the `update` workflow (date changed, force unset, full season,
delete succeeded, re-add reached the recheck step), a `recheck_and_resume_async`
result reporting failure makes the run return FAILURE, the operation log
contains the entry "Failed to start recheck for torrent: {name}" — which has
"Failed to start recheck" as a Python substring — and `update_config` is
never reached, so the Title is not persisted. -/
theorem update_recheck_start_failure_aborts
    (app : ApplicationConfig) (resp : UpdateResponses)
    (resolver : List String → Int × Int) (op0 : OperationResult)
    (title : Title) (hsh first : String) (rest : List String) (title1 : Title)
    (steps : List (Int × Option (String × String))) (folder : String)
    (out : UpdateOutcome)
    (hc : app.client = "qbittorrent")
    (hdate : pyIn title.publish_date resp.torrent.date = false)
    (hps : title.is_partial_season = false)
    (hdel : resp.delete_result = true)
    (hadd : resp.proc.add_torrent_response = some hsh)
    (hinfo : resp.proc.info_nonempty = true)
    (hfiles : resp.proc.files = first :: rest)
    (hres : resolve_new_title resolver
      { title with
        publish_date := resp.torrent.date
        hash := hsh } resp.torrent false first = some title1)
    (hsteps : resp.proc.files.mapM (rename_step app title1) = some steps)
    (hfold : season_folder_styled app title1 (steps.map Prod.fst) = some folder)
    (hrecheck : resp.proc.recheck_async_result.fst = false)
    (hrun : update app false resp resolver op0 (some title) = some out) :
    out.result.response_code = ResponseCode.FAILURE
    ∧ ("Failed to start recheck for torrent: " ++ resp.torrent.name) ∈
        out.result.operation_logs
    ∧ pyIn "Failed to start recheck"
        ("Failed to start recheck for torrent: " ++ resp.torrent.name) = true
    ∧ out.effects.update_config_called = false := by
  simp only [update, hdate, hps, hdel] at hrun
  simp at hrun
  rw [process_torrent_qbit_reduction app resp.proc resolver _ title resp.torrent false
    hsh first rest title1 steps folder hc hadd hinfo hfiles hres hsteps hfold] at hrun
  unfold process_torrent_tail at hrun
  rw [if_pos hc] at hrun
  simp only [Bool.false_eq_true, if_false] at hrun
  rw [if_pos hrecheck] at hrun
  simp at hrun
  subst hrun
  refine ⟨rfl, ?_, ?_, rfl⟩
  · simp [appendFail]
  · exact pyIn_prefix "Failed to start recheck" (" for torrent: " ++ resp.torrent.name)

/-- C6, witness: the recheck-start failure at a concrete input. -/
theorem update_recheck_start_failure_aborts_witness :
    (update { client := "qbittorrent", enable_dot_spacing_in_file_name := true } false
      { torrent := { name := "My Show S01E01", date := "2024-01-02" },
        proc := { add_torrent_response := some "hash123",
                  files := ["My Show S01/My Show S01E01.mkv"],
                  recheck_async_result := (false, "Recheck failed") } }
      (fun _ => (1, 0)) { response_code := ResponseCode.SUCCESS }
      (some { code_name := "MyShow", episode_index := 0, season_number := "01",
              torrent_name := "My Show", release_group := "RG", meta := "WEB",
              publish_date := "2024-01-01", hash := "oldhash", guid := "t123" })).map
      (fun o => (o.result.response_code, o.effects.update_config_called)) =
      some (ResponseCode.FAILURE, false)
  ∧ pyIn "Failed to start recheck"
      ("Failed to start recheck for torrent: " ++ "My Show S01E01") = true := by
  cases hp : update { client := "qbittorrent", enable_dot_spacing_in_file_name := true } false
      { torrent := { name := "My Show S01E01", date := "2024-01-02" },
        proc := { add_torrent_response := some "hash123",
                  files := ["My Show S01/My Show S01E01.mkv"],
                  recheck_async_result := (false, "Recheck failed") } }
      (fun _ => (1, 0)) { response_code := ResponseCode.SUCCESS }
      (some { code_name := "MyShow", episode_index := 0, season_number := "01",
              torrent_name := "My Show", release_group := "RG", meta := "WEB",
              publish_date := "2024-01-01", hash := "oldhash", guid := "t123" }) with
  | none => exact absurd hp (by decide)
  | some out =>
    have h := update_recheck_start_failure_aborts
      { client := "qbittorrent", enable_dot_spacing_in_file_name := true }
      { torrent := { name := "My Show S01E01", date := "2024-01-02" },
        proc := { add_torrent_response := some "hash123",
                  files := ["My Show S01/My Show S01E01.mkv"],
                  recheck_async_result := (false, "Recheck failed") } }
      (fun _ => (1, 0)) { response_code := ResponseCode.SUCCESS }
      { code_name := "MyShow", episode_index := 0, season_number := "01",
        torrent_name := "My Show", release_group := "RG", meta := "WEB",
        publish_date := "2024-01-01", hash := "oldhash", guid := "t123" }
      "hash123" "My Show S01/My Show S01E01.mkv" [] _ _ _ out
      rfl rfl rfl rfl rfl rfl rfl rfl rfl rfl rfl hp
    refine ⟨?_, h.2.2.1⟩
    try rw [hp]
    simp [h.1, h.2.2.2]

/-- C8: in partial-season processing (qBittorrent, update path), a file is
skipped by the rename loop exactly when its current base name equals its
computed target base name (first conjunct, the per-file rule); the issued
`rename_file` calls are exactly the unskipped entries of the loop (second
conjunct); the loop produces one entry per file — skipped files included —
and it is this full episode range that names the folder (third/fourth/fifth
conjuncts: the folder and torrent renames are issued unconditionally, once
each, with the folder name computed from the range over ALL files); and if
every file already matches its target, no `rename_file` call is issued at
all (idempotence, sixth conjunct). -/
theorem process_torrent_partial_skip_rule
    (app : ApplicationConfig) (resp : ClientResponses)
    (resolver : List String → Int × Int) (op0 : OperationResult)
    (title0 : Title) (torrent : Torrent) (hsh first : String)
    (rest : List String) (steps : List (Int × Option (String × String)))
    (folder : String) (out : ProcOutcome)
    (hc : app.client = "qbittorrent")
    (hps : title0.is_partial_season = true)
    (hadd : resp.add_torrent_response = some hsh)
    (hinfo : resp.info_nonempty = true)
    (hfiles : resp.files = first :: rest)
    (hsteps : resp.files.mapM (rename_step app title0) = some steps)
    (hfold : season_folder_styled app title0 (steps.map Prod.fst) = some folder)
    (hrun : process_torrent app resp resolver op0 title0 torrent false = some out) :
    (∀ f src, pyIndex (get_numbers f) title0.episode_index = some src →
      rename_step app title0 f =
        some (pyInt (calculated_episode title0 src),
          if base_file_name f =
              base_file_name (target_path app title0 f (calculated_episode title0 src))
          then none
          else some (f, target_path app title0 f (calculated_episode title0 src))))
  ∧ out.effects.rename_file_calls = steps.filterMap (fun p => p.snd)
  ∧ steps.length = resp.files.length
  ∧ out.effects.rename_folder_calls = [(get_folder_name_from_path first, folder)]
  ∧ out.effects.rename_torrent_calls = [folder]
  ∧ ((∀ p ∈ steps, p.snd = none) → out.effects.rename_file_calls = []) := by
  have hskip : ∀ f src, pyIndex (get_numbers f) title0.episode_index = some src →
      rename_step app title0 f =
        some (pyInt (calculated_episode title0 src),
          if base_file_name f =
              base_file_name (target_path app title0 f (calculated_episode title0 src))
          then none
          else some (f, target_path app title0 f (calculated_episode title0 src))) := by
    intro f src hpi
    simp only [rename_step, hpi, hps, eq_self_iff_true, true_and]
  have hlen : steps.length = resp.files.length :=
    mapM_option_length (rename_step app title0) resp.files steps hsteps
  have hres : resolve_new_title resolver
      { title0 with
        publish_date := torrent.date
        hash := hsh } torrent false first = some
      { title0 with
        publish_date := torrent.date
        hash := hsh } := rfl
  have hsteps1 : resp.files.mapM (rename_step app
      { title0 with
        publish_date := torrent.date
        hash := hsh }) = some steps := hsteps
  have hfold1 : season_folder_styled app
      { title0 with
        publish_date := torrent.date
        hash := hsh } (steps.map Prod.fst) = some folder := hfold
  rw [process_torrent_qbit_reduction app resp resolver op0 title0 torrent false
    hsh first rest _ steps folder hc hadd hinfo hfiles hres hsteps1 hfold1] at hrun
  unfold process_torrent_tail at hrun
  rw [if_pos hc] at hrun
  simp only [Bool.false_eq_true, if_false] at hrun
  by_cases hk : resp.recheck_async_result.fst = false
  · rw [if_pos hk] at hrun
    obtain h := Option.some.inj hrun
    subst h
    exact ⟨hskip, rfl, hlen, rfl, rfl,
      fun hall => List.filterMap_eq_nil_iff.mpr hall⟩
  · rw [if_neg hk] at hrun
    obtain h := Option.some.inj hrun
    subst h
    exact ⟨hskip, rfl, hlen, rfl, rfl,
      fun hall => List.filterMap_eq_nil_iff.mpr hall⟩

/-- C8, witness: a concrete partial-season batch of two files in which the
second already carries its target name — only the first is renamed, and the
folder/torrent names use the range over both episodes. -/
theorem process_torrent_partial_skip_rule_witness :
    (process_torrent { client := "qbittorrent", enable_dot_spacing_in_file_name := false }
      { add_torrent_response := some "h1",
        files := ["Show/Show S01E01.mkv", "Show/Show S01E02 WEB-RG.mkv"] }
      (fun _ => (1, 0)) { response_code := ResponseCode.SUCCESS }
      { code_name := "Show", episode_index := 1, season_number := "01",
        torrent_name := "Show", release_group := "RG", meta := "WEB",
        is_partial_season := true }
      { name := "Show", date := "2024-01-02" } false).map
      (fun o => (o.effects.rename_file_calls, o.effects.rename_folder_calls,
                 o.effects.rename_torrent_calls)) =
    some ([("Show/Show S01E01.mkv", "Show/Show S01E01 WEB-RG.mkv")],
      [("Show", "Show S01E01-E02 WEB[RG]")], ["Show S01E01-E02 WEB[RG]"]) := by
  cases hp : process_torrent { client := "qbittorrent", enable_dot_spacing_in_file_name := false }
      { add_torrent_response := some "h1",
        files := ["Show/Show S01E01.mkv", "Show/Show S01E02 WEB-RG.mkv"] }
      (fun _ => (1, 0)) { response_code := ResponseCode.SUCCESS }
      { code_name := "Show", episode_index := 1, season_number := "01",
        torrent_name := "Show", release_group := "RG", meta := "WEB",
        is_partial_season := true }
      { name := "Show", date := "2024-01-02" } false with
  | none => exact absurd hp (by decide)
  | some out =>
    have h := process_torrent_partial_skip_rule
      { client := "qbittorrent", enable_dot_spacing_in_file_name := false }
      { add_torrent_response := some "h1",
        files := ["Show/Show S01E01.mkv", "Show/Show S01E02 WEB-RG.mkv"] }
      (fun _ => (1, 0)) { response_code := ResponseCode.SUCCESS }
      { code_name := "Show", episode_index := 1, season_number := "01",
        torrent_name := "Show", release_group := "RG", meta := "WEB",
        is_partial_season := true }
      { name := "Show", date := "2024-01-02" } "h1" "Show/Show S01E01.mkv"
      ["Show/Show S01E02 WEB-RG.mkv"] _ _ out
      rfl rfl rfl rfl rfl rfl rfl hp
    try rw [hp]
    simp [h.2.1, h.2.2.2.1, h.2.2.2.2.1]
    decide

end Toloka
